import Mathlib

/-!
Shallow embedding of `src/debugger/src/cpu_sysc_plugin/riverlib/cache/dcache.cpp`
(the `DCache` module of the riscv_vhdl debugger plugin).

The module is a synchronous width adapter between a variably-sized load/store
request interface and a fixed 64-bit memory bus.  Its combinational process
`DCache::comb` is embedded as a pure function from the register file `r` and
the input signals to the next register value `v` and the output signals; the
sequential process `DCache::registers` (`r = v`) is embedded as `step`.

Machine integers are modelled as `Nat` with explicit `% 2 ^ w` masks at the
points where the SystemC source performs a bit-range selection or assigns to
a fixed-width signal.  Port and register widths follow the specification
(section 6): 32-bit addresses, 64-bit data words, 8-bit strobes.  The size
field `i_req_data_sz` is modelled as an unbounded `Nat` so that the `default`
branches of the source's size switches (the widened-field case discussed in
the specification, section 9) are representable.
-/

namespace DCacheModel

/-- Register file of the module: the latched pending request.
Mirrors `RegistersType` (`req_addr`, `req_size`, `rena`) used by the source
through `r` and `v`.  `req_addr` is a 32-bit address, `req_size` a size code,
`rena` the latched read-enable flag. -/
structure RegistersType where
  req_addr : Nat
  req_size : Nat
  rena : Bool
deriving DecidableEq

/-- Input signals of `DCache::comb`, named after the source ports.
`i_nrst` is the active-low reset, `i_req_data_sz` the request size code,
`i_req_data_addr` a 32-bit address, `i_req_data_data` and `i_resp_mem_data`
64-bit data words. -/
structure CombInputs where
  i_nrst : Bool
  i_req_data_valid : Bool
  i_req_data_write : Bool
  i_req_data_sz : Nat
  i_req_data_addr : Nat
  i_req_data_data : Nat
  i_resp_mem_data_valid : Bool
  i_resp_mem_data : Nat
deriving DecidableEq

/-- Output signals of `DCache::comb`, named after the source ports. -/
structure CombOutputs where
  o_req_mem_valid : Bool
  o_req_mem_write : Bool
  o_req_mem_addr : Nat
  o_req_mem_strob : Nat
  o_req_mem_data : Nat
  o_resp_data_valid : Bool
  o_resp_data_data : Nat
  o_resp_data_addr : Nat
deriving DecidableEq

/-- SystemC bit-range selection `x(hi, lo)`: bits `hi` down to `lo` of `x`,
zero-extended. -/
def bits (x hi lo : Nat) : Nat :=
  (x >>> lo) % 2 ^ (hi + 1 - lo)

/-- The write-path size switch of `DCache::comb`: given the size code and the
64-bit request data, returns `(wb_wdata, wb_msk)`.  Each case replicates the
selected low bits of `i_req_data_data` across the 64-bit bus word by
concatenation (modelled as `hi * 2 ^ w + lo`) and picks the pre-shift strobe
mask; the `default` case leaves both at their zero initialisation. -/
def writeCase (sz data : Nat) : Nat × Nat :=
  match sz with
  | 0 =>
      let b := bits data 7 0
      (((((((b * 2 ^ 8 + b) * 2 ^ 8 + b) * 2 ^ 8 + b) * 2 ^ 8 + b) * 2 ^ 8 + b)
          * 2 ^ 8 + b) * 2 ^ 8 + b, 0x01)
  | 1 =>
      let h := bits data 15 0
      (((h * 2 ^ 16 + h) * 2 ^ 16 + h) * 2 ^ 16 + h, 0x03)
  | 2 =>
      let w := bits data 31 0
      (w * 2 ^ 32 + w, 0x0F)
  | 3 => (data % 2 ^ 64, 0xFF)
  | _ => (0, 0)

/-- The byte-offset switch of `DCache::comb` on `r.req_addr(2, 0)`: shifts the
64-bit bus response right by the byte offset via bit-range selection,
producing `wb_rtmp`. -/
def rtmpCase (off respd : Nat) : Nat :=
  match off with
  | 1 => bits respd 63 8
  | 2 => bits respd 63 16
  | 3 => bits respd 63 24
  | 4 => bits respd 63 32
  | 5 => bits respd 63 40
  | 6 => bits respd 63 48
  | 7 => bits respd 63 56
  | _ => respd

/-- The size switch of `DCache::comb` on `r.req_size`: truncates `wb_rtmp` to
the width implied by the latched size, producing `wb_rdata`. -/
def rdataCase (sz rtmp : Nat) : Nat :=
  match sz with
  | 0 => bits rtmp 7 0
  | 1 => bits rtmp 15 0
  | 2 => bits rtmp 31 0
  | _ => rtmp

/-- Embedding of `DCache::comb`: from the current register value and the input
signals, compute the next register value `v` and the output signals.  The
structure follows the source line by line: bus-address alignment, read-enable
derivation, the write-path switch and strobe shift, the two read-extraction
switches, the latch capture, the reset override, and the output assignments. -/
def comb (r : RegistersType) (i : CombInputs) : RegistersType × CombOutputs :=
  let wb_req_addr := bits i.i_req_data_addr 31 3 <<< 3
  let rena := !i.i_req_data_write && i.i_req_data_valid
  let ww :=
    if i.i_req_data_write then writeCase i.i_req_data_sz i.i_req_data_data
    else (0, 0)
  let wb_wdata := ww.1
  let wb_msk := ww.2
  let wb_req_strob :=
    if i.i_req_data_write then
      (wb_msk <<< bits i.i_req_data_addr 2 0) % 2 ^ 8
    else 0
  let wb_rtmp := rtmpCase (bits r.req_addr 2 0) (i.i_resp_mem_data % 2 ^ 64)
  let wb_rdata := rdataCase r.req_size wb_rtmp
  let v0 : RegistersType := { r with rena := rena }
  let v1 :=
    if i.i_req_data_valid then
      { v0 with req_addr := i.i_req_data_addr % 2 ^ 32,
                req_size := i.i_req_data_sz }
    else v0
  let v :=
    if !i.i_nrst then
      ({ req_addr := 0, req_size := 0, rena := false } : RegistersType)
    else v1
  (v, { o_req_mem_valid := i.i_req_data_valid
        o_req_mem_write := i.i_req_data_write
        o_req_mem_addr := wb_req_addr
        o_req_mem_strob := wb_req_strob
        o_req_mem_data := wb_wdata
        o_resp_data_valid := i.i_resp_mem_data_valid
        o_resp_data_data := wb_rdata
        o_resp_data_addr := r.req_addr })

/-- Embedding of `DCache::registers`: at the rising clock edge the register
file takes the combinationally computed next value, `r = v`. -/
def registers (v : RegistersType) : RegistersType :=
  v

/-- One full clock cycle: evaluate `comb` on the current register value and
the cycle's inputs, then latch its next-state through `registers`. -/
def step (r : RegistersType) (i : CombInputs) : RegistersType :=
  registers (comb r i).1

/-- Response width in bits implied by a latched size code, as the spec states
it: 8 bits for size 0, 16 for size 1, 32 for size 2, 64 otherwise. -/
def respWidth (sz : Nat) : Nat :=
  match sz with
  | 0 => 8
  | 1 => 16
  | 2 => 32
  | _ => 64

/-- Spec-side read-extraction formula (specification section 4, step 4):
shift the 64-bit bus response right by `8 * address[2:0]` bits, zero-extend,
then truncate to the width implied by the latched size. -/
def specRespData (addr sz respd : Nat) : Nat :=
  ((respd % 2 ^ 64) >>> (8 * (addr % 8))) % 2 ^ respWidth sz

/-- A chunk of width `w` bits replicated `copies` times, most significant copy
first; used to state the spec's write-data replication. -/
def replicate64 (w copies chunk : Nat) : Nat :=
  match copies with
  | 0 => 0
  | k + 1 => replicate64 w k chunk * 2 ^ w + chunk

/-- Spec-side write-data formula (specification section 4, step 3): the low
`8 * 2 ^ sz` bits of the request data replicated to fill the 64-bit bus word
(8 copies for Byte, 4 for Half, 2 for Word, 1 for Double). -/
def specBusReqData (sz data : Nat) : Nat :=
  replicate64 (8 * 2 ^ sz) (8 / 2 ^ sz) (data % 2 ^ (8 * 2 ^ sz))

/-- Spec-side pre-shift strobe pattern by size code: `0x01` for Byte, `0x03`
for Half, `0x0F` for Word, `0xFF` for Double. -/
def strobePattern (sz : Nat) : Nat :=
  match sz with
  | 0 => 0x01
  | 1 => 0x03
  | 2 => 0x0F
  | 3 => 0xFF
  | _ => 0

/-- A right shift of a value below `2 ^ n` by `s ≤ n` bits is below
`2 ^ (n - s)`. -/
theorem shiftRight_lt_of_lt {x n s : Nat} (h : x < 2 ^ n) (hs : s ≤ n) :
    x >>> s < 2 ^ (n - s) := by
  rw [Nat.shiftRight_eq_div_pow]
  rw [Nat.div_lt_iff_lt_mul (Nat.pos_pow_of_pos s (by norm_num))]
  calc x < 2 ^ n := h
  _ = 2 ^ (n - s) * 2 ^ s := by rw [← pow_add, Nat.sub_add_cancel hs]

/-- A right shift never increases a natural number. -/
theorem shiftRight_le (x s : Nat) : x >>> s ≤ x := by
  rw [Nat.shiftRight_eq_div_pow]
  exact Nat.div_le_self _ _

/-- The bit-range selection `a(2, 0)` is the remainder modulo 8. -/
theorem bits_two_zero (a : Nat) : bits a 2 0 = a % 8 := by
  simp [bits]

/-- For a 64-bit response word and an in-range byte offset, the offset switch
computes exactly the right shift by `8 * offset` bits. -/
theorem rtmpCase_eq {respd : Nat} (hr : respd < 2 ^ 64) {k : Nat} (hk : k < 8) :
    rtmpCase k respd = respd >>> (8 * k) := by
  interval_cases k
  · simp [rtmpCase]
  · exact Nat.mod_eq_of_lt (shiftRight_lt_of_lt hr (by norm_num))
  · exact Nat.mod_eq_of_lt (shiftRight_lt_of_lt hr (by norm_num))
  · exact Nat.mod_eq_of_lt (shiftRight_lt_of_lt hr (by norm_num))
  · exact Nat.mod_eq_of_lt (shiftRight_lt_of_lt hr (by norm_num))
  · exact Nat.mod_eq_of_lt (shiftRight_lt_of_lt hr (by norm_num))
  · exact Nat.mod_eq_of_lt (shiftRight_lt_of_lt hr (by norm_num))
  · exact Nat.mod_eq_of_lt (shiftRight_lt_of_lt hr (by norm_num))

/-- For a 64-bit intermediate value the size switch is truncation to the
response width. -/
theorem rdataCase_eq {rtmp : Nat} (h : rtmp < 2 ^ 64) (sz : Nat) :
    rdataCase sz rtmp = rtmp % 2 ^ respWidth sz := by
  match sz with
  | 0 => simp [rdataCase, respWidth, bits]
  | 1 => simp [rdataCase, respWidth, bits]
  | 2 => simp [rdataCase, respWidth, bits]
  | n + 3 =>
    show rtmp = rtmp % 2 ^ 64
    exact (Nat.mod_eq_of_lt h).symm

/-- The response width never exceeds `8 * 2 ^ sz` bits. -/
theorem respWidth_le (sz : Nat) : respWidth sz ≤ 8 * 2 ^ sz := by
  match sz with
  | 0 => decide
  | 1 => decide
  | 2 => decide
  | n + 3 =>
    show 64 ≤ 8 * 2 ^ (n + 3)
    have h8 : 2 ^ 3 ≤ 2 ^ (n + 3) := Nat.pow_le_pow_right (by norm_num) (by omega)
    calc (64 : Nat) = 8 * 2 ^ 3 := by norm_num
    _ ≤ 8 * 2 ^ (n + 3) := Nat.mul_le_mul_left 8 h8

/-- C1: for every latched pending request and every 64-bit bus response word,
the response data equals the response shifted right by `8 * address[2:0]`
bits, zero-extended, then truncated to the width implied by the latched size
(8/16/32 bits for sizes 0/1/2, 64 bits otherwise); in particular every bit at
or above position `8 * 2 ^ size` is zero. -/
theorem C1_read_extraction (r : RegistersType) (i : CombInputs) :
    (comb r i).2.o_resp_data_data
        = specRespData r.req_addr r.req_size i.i_resp_mem_data ∧
    (comb r i).2.o_resp_data_data < 2 ^ (8 * 2 ^ r.req_size) := by
  have hresp : i.i_resp_mem_data % 2 ^ 64 < 2 ^ 64 :=
    Nat.mod_lt _ (by norm_num)
  have hoff : r.req_addr % 8 < 8 := Nat.mod_lt _ (by norm_num)
  have hcomb : (comb r i).2.o_resp_data_data
      = rdataCase r.req_size
          (rtmpCase (bits r.req_addr 2 0) (i.i_resp_mem_data % 2 ^ 64)) := rfl
  have hrtmp : rtmpCase (r.req_addr % 8) (i.i_resp_mem_data % 2 ^ 64)
      = (i.i_resp_mem_data % 2 ^ 64) >>> (8 * (r.req_addr % 8)) :=
    rtmpCase_eq hresp hoff
  have hlt : (i.i_resp_mem_data % 2 ^ 64) >>> (8 * (r.req_addr % 8)) < 2 ^ 64 :=
    Nat.lt_of_le_of_lt (shiftRight_le _ _) hresp
  have hmain : (comb r i).2.o_resp_data_data
      = specRespData r.req_addr r.req_size i.i_resp_mem_data := by
    rw [hcomb, bits_two_zero, hrtmp, rdataCase_eq hlt, specRespData]
  refine ⟨hmain, ?_⟩
  rw [hmain, specRespData]
  calc ((i.i_resp_mem_data % 2 ^ 64) >>> (8 * (r.req_addr % 8)))
          % 2 ^ respWidth r.req_size
      < 2 ^ respWidth r.req_size := Nat.mod_lt _ (Nat.pos_pow_of_pos _ (by norm_num))
  _ ≤ 2 ^ (8 * 2 ^ r.req_size) :=
      Nat.pow_le_pow_right (by norm_num) (respWidth_le r.req_size)

/-- For a valid size code, the strobe mask chosen by the write-path switch is
the spec's pre-shift pattern. -/
theorem writeCase_snd (sz data : Nat) (hs : sz < 4) :
    (writeCase sz data).2 = strobePattern sz := by
  interval_cases sz <;> rfl

/-- For a valid size code, the write data built by the write-path switch is
the spec's replication of the low `8 * 2 ^ sz` bits. -/
theorem writeCase_fst (sz data : Nat) (hs : sz < 4) :
    (writeCase sz data).1 = specBusReqData sz data := by
  interval_cases sz
  · have h1 : (writeCase 0 data).1
        = ((((((((data % 2 ^ 8) * 2 ^ 8 + data % 2 ^ 8) * 2 ^ 8 + data % 2 ^ 8)
            * 2 ^ 8 + data % 2 ^ 8) * 2 ^ 8 + data % 2 ^ 8) * 2 ^ 8 + data % 2 ^ 8)
            * 2 ^ 8 + data % 2 ^ 8) * 2 ^ 8 + data % 2 ^ 8) := rfl
    have h2 : specBusReqData 0 data
        = ((((((((0 * 2 ^ 8 + data % 2 ^ 8) * 2 ^ 8 + data % 2 ^ 8)
            * 2 ^ 8 + data % 2 ^ 8) * 2 ^ 8 + data % 2 ^ 8) * 2 ^ 8 + data % 2 ^ 8)
            * 2 ^ 8 + data % 2 ^ 8) * 2 ^ 8 + data % 2 ^ 8) * 2 ^ 8 + data % 2 ^ 8) := rfl
    rw [h1, h2]; ring
  · have h1 : (writeCase 1 data).1
        = ((((data % 2 ^ 16) * 2 ^ 16 + data % 2 ^ 16) * 2 ^ 16 + data % 2 ^ 16)
            * 2 ^ 16 + data % 2 ^ 16) := rfl
    have h2 : specBusReqData 1 data
        = ((((0 * 2 ^ 16 + data % 2 ^ 16) * 2 ^ 16 + data % 2 ^ 16)
            * 2 ^ 16 + data % 2 ^ 16) * 2 ^ 16 + data % 2 ^ 16) := rfl
    rw [h1, h2]; ring
  · have h1 : (writeCase 2 data).1
        = ((data % 2 ^ 32) * 2 ^ 32 + data % 2 ^ 32) := rfl
    have h2 : specBusReqData 2 data
        = ((0 * 2 ^ 32 + data % 2 ^ 32) * 2 ^ 32 + data % 2 ^ 32) := rfl
    rw [h1, h2]; ring
  · have h2 : specBusReqData 3 data = 0 * 2 ^ 64 + data % 2 ^ 64 := rfl
    have h1 : (writeCase 3 data).1 = data % 2 ^ 64 := rfl
    rw [h1, h2]; ring

/-- C2 counterexample: the claim predicts that a Word write at byte offset 5
drives `busReqStrobe = 0x0F <<< 5 = 0x1E0`, but the 8-bit strobe output of the
code carries `0xE0`. -/
theorem C2_strobe_counterexample :
    ¬ ((comb ⟨0, 0, false⟩
          ⟨true, true, true, 2, 5, 0xAABBCCDD, false, 0⟩).2.o_req_mem_strob
        = 0x0F <<< 5) := by
  decide

/-- C2 (amended): for every write cycle with a valid size code, the bus write
data is the low `8 * 2 ^ size` bits of the request data replicated to fill 64
bits, and the bus strobe is the size's pre-shift pattern left-shifted by
`reqAddress[2:0]` and truncated to the 8-bit strobe width (modulo `2 ^ 8`). -/
theorem C2_write_translation (r : RegistersType) (i : CombInputs)
    (hw : i.i_req_data_write = true) (hs : i.i_req_data_sz < 4) :
    (comb r i).2.o_req_mem_data
        = specBusReqData i.i_req_data_sz i.i_req_data_data ∧
    (comb r i).2.o_req_mem_strob
        = (strobePattern i.i_req_data_sz <<< (i.i_req_data_addr % 8)) % 2 ^ 8 := by
  constructor
  · show (if i.i_req_data_write then
        writeCase i.i_req_data_sz i.i_req_data_data else (0, 0)).1 = _
    rw [hw, if_pos rfl]
    exact writeCase_fst _ _ hs
  · show (if i.i_req_data_write then
        ((if i.i_req_data_write then
            writeCase i.i_req_data_sz i.i_req_data_data else (0, 0)).2
          <<< bits i.i_req_data_addr 2 0) % 2 ^ 8
      else 0) = _
    rw [hw, if_pos rfl, if_pos rfl, writeCase_snd _ _ hs, bits_two_zero]

/-- C2 witness: the spec's own example, a Word write of `0xAABBCCDD` at an
8-byte-aligned address, drives the replicated word `0xAABBCCDDAABBCCDD` and
strobe `0x0F`. -/
theorem C2_write_translation_witness :
    (comb ⟨0, 0, false⟩
        ⟨true, true, true, 2, 0, 0xAABBCCDD, false, 0⟩).2.o_req_mem_data
      = 0xAABBCCDDAABBCCDD ∧
    (comb ⟨0, 0, false⟩
        ⟨true, true, true, 2, 0, 0xAABBCCDD, false, 0⟩).2.o_req_mem_strob
      = 0x0F := by
  have h := C2_write_translation ⟨0, 0, false⟩
    ⟨true, true, true, 2, 0, 0xAABBCCDD, false, 0⟩ rfl (by decide)
  exact ⟨h.1.trans (by decide), h.2.trans (by decide)⟩

/-- C9: the 8-bit strobe output is the pre-shift pattern shifted by the byte
offset, reduced modulo `2 ^ 8`, so strobe bits pushed past the 8-byte bus
word are silently discarded and no wrap-around occurs. -/
theorem C9_strobe_truncation (r : RegistersType) (i : CombInputs)
    (hw : i.i_req_data_write = true) (hs : i.i_req_data_sz < 4) :
    (comb r i).2.o_req_mem_strob
        = (strobePattern i.i_req_data_sz <<< (i.i_req_data_addr % 8)) % 2 ^ 8 := by
  show (if i.i_req_data_write then
      ((if i.i_req_data_write then
          writeCase i.i_req_data_sz i.i_req_data_data else (0, 0)).2
        <<< bits i.i_req_data_addr 2 0) % 2 ^ 8
    else 0) = _
  rw [hw, if_pos rfl, if_pos rfl, writeCase_snd _ _ hs, bits_two_zero]

/-- C9 witness: a Double write at byte offset 4 enables only the upper four
byte lanes, `busReqStrobe = 0xF0`. -/
theorem C9_strobe_truncation_witness :
    (comb ⟨0, 0, false⟩
        ⟨true, true, true, 3, 4, 0, false, 0⟩).2.o_req_mem_strob = 0xF0 :=
  (C9_strobe_truncation ⟨0, 0, false⟩
    ⟨true, true, true, 3, 4, 0, false, 0⟩ rfl (by decide)).trans (by decide)

/-- C3: for every 32-bit request address the outgoing bus address is the
request address with its low 3 bits cleared, computed from the current-cycle
request for every latch state. -/
theorem C3_bus_address_alignment (r : RegistersType) (i : CombInputs)
    (h : i.i_req_data_addr < 2 ^ 32) :
    (comb r i).2.o_req_mem_addr = i.i_req_data_addr / 8 * 8 := by
  have hdiv : i.i_req_data_addr / 8 < 2 ^ 29 := by
    rw [Nat.div_lt_iff_lt_mul (by norm_num)]
    calc i.i_req_data_addr < 2 ^ 32 := h
    _ = 2 ^ 29 * 8 := by norm_num
  show bits i.i_req_data_addr 31 3 <<< 3 = _
  rw [bits, Nat.shiftRight_eq_div_pow, Nat.shiftLeft_eq]
  norm_num
  exact hdiv

/-- C3 witness: the spec's example, address `0x1004` aligns to `0x1000`. -/
theorem C3_bus_address_alignment_witness :
    (0x1004 : Nat) < 2 ^ 32 ∧
    (comb ⟨0, 0, false⟩
        ⟨true, true, true, 2, 0x1004, 0, false, 0⟩).2.o_req_mem_addr = 0x1000 :=
  ⟨by decide,
   (C3_bus_address_alignment ⟨0, 0, false⟩
      ⟨true, true, true, 2, 0x1004, 0, false, 0⟩ (by decide)).trans (by decide)⟩

/-- C4: the requester-side response outputs depend only on the latched request
and the bus response signals; two evaluations over the same latch that agree
on `busRespValid` and `busRespData` but differ arbitrarily in the same-cycle
request inputs produce identical response outputs. -/
theorem C4_response_attribution (r : RegistersType) (i1 i2 : CombInputs)
    (hv : i1.i_resp_mem_data_valid = i2.i_resp_mem_data_valid)
    (hd : i1.i_resp_mem_data = i2.i_resp_mem_data) :
    (comb r i1).2.o_resp_data_valid = (comb r i2).2.o_resp_data_valid ∧
    (comb r i1).2.o_resp_data_data = (comb r i2).2.o_resp_data_data ∧
    (comb r i1).2.o_resp_data_addr = (comb r i2).2.o_resp_data_addr := by
  refine ⟨hv, ?_, rfl⟩
  show rdataCase r.req_size
      (rtmpCase (bits r.req_addr 2 0) (i1.i_resp_mem_data % 2 ^ 64))
    = rdataCase r.req_size
      (rtmpCase (bits r.req_addr 2 0) (i2.i_resp_mem_data % 2 ^ 64))
  rw [hd]

/-- C4 witness: a same-cycle write request does not change the response
extracted for the latched Word request at offset 4. -/
theorem C4_response_attribution_witness :
    (comb ⟨0x1004, 2, true⟩
        ⟨true, true, true, 3, 12, 99, true, 0x1122334455667788⟩).2.o_resp_data_data
      = (comb ⟨0x1004, 2, true⟩
        ⟨true, false, false, 0, 0, 0, true, 0x1122334455667788⟩).2.o_resp_data_data :=
  (C4_response_attribution ⟨0x1004, 2, true⟩
    ⟨true, true, true, 3, 12, 99, true, 0x1122334455667788⟩
    ⟨true, false, false, 0, 0, 0, true, 0x1122334455667788⟩ rfl rfl).2.1

/-- C5: whenever the active-low reset is asserted in a cycle, after that
cycle's clock edge the latch is `{address := 0, size := 0, rena := false}`,
overriding any capture performed in the same cycle. -/
theorem C5_reset_override (r : RegistersType) (i : CombInputs)
    (h : i.i_nrst = false) :
    step r i = ⟨0, 0, false⟩ := by
  simp [step, registers, comb, h]

/-- C5 witness: reset clears a nonzero latch even while a valid request is
presented in the same cycle. -/
theorem C5_reset_override_witness :
    step ⟨123, 2, true⟩ ⟨false, true, true, 3, 77, 5, true, 9⟩ = ⟨0, 0, false⟩ :=
  C5_reset_override ⟨123, 2, true⟩ ⟨false, true, true, 3, 77, 5, true, 9⟩ rfl

/-- C6: a cycle with `reqValid` low and reset deasserted preserves the latched
address and size for every prior state, and preserves the reset-value latch
`{address := 0, size := 0, rena := false}` exactly. -/
theorem C6_latch_frame (r : RegistersType) (i : CombInputs)
    (hn : i.i_nrst = true) (hv : i.i_req_data_valid = false) :
    (step r i).req_addr = r.req_addr ∧ (step r i).req_size = r.req_size ∧
    (r = ⟨0, 0, false⟩ → step r i = r) := by
  have hstep : step r i = { r with rena := false } := by
    simp [step, registers, comb, hn, hv]
  exact ⟨by rw [hstep], by rw [hstep], fun h => by rw [hstep, h]⟩

/-- C6 witness: the reset-value latch is left unchanged by an idle cycle even
with `reqWrite` high. -/
theorem C6_latch_frame_witness :
    step ⟨0, 0, false⟩ ⟨true, false, true, 2, 55, 7, false, 3⟩ = ⟨0, 0, false⟩ :=
  (C6_latch_frame ⟨0, 0, false⟩
    ⟨true, false, true, 2, 55, 7, false, 3⟩ rfl rfl).2.2 rfl

/-- The write-path switch falls through to its zero-initialised defaults for
every size code outside 0..3. -/
theorem writeCase_default (sz data : Nat) (h : 4 ≤ sz) :
    writeCase sz data = (0, 0) := by
  match sz, h with
  | n + 4, _ => rfl

/-- C7: a write cycle whose size code is none of 0..3 drives a zero strobe and
zero write data; the output record carries no error indication of any kind
(it has no error field at all). -/
theorem C7_invalid_size_noop (r : RegistersType) (i : CombInputs)
    (hw : i.i_req_data_write = true) (hs : 4 ≤ i.i_req_data_sz) :
    (comb r i).2.o_req_mem_strob = 0 ∧ (comb r i).2.o_req_mem_data = 0 := by
  constructor
  · show (if i.i_req_data_write then
        ((if i.i_req_data_write then
            writeCase i.i_req_data_sz i.i_req_data_data else (0, 0)).2
          <<< bits i.i_req_data_addr 2 0) % 2 ^ 8
      else 0) = 0
    rw [hw, if_pos rfl, if_pos rfl, writeCase_default _ _ hs]
    simp
  · show (if i.i_req_data_write then
        writeCase i.i_req_data_sz i.i_req_data_data else (0, 0)).1 = 0
    rw [hw, if_pos rfl, writeCase_default _ _ hs]

/-- C7 witness: a write with size code 4 produces neither strobe nor data. -/
theorem C7_invalid_size_noop_witness :
    (4 : Nat) ≤ 4 ∧
    ((comb ⟨0, 0, false⟩
        ⟨true, true, true, 4, 3, 0xDEADBEEF, false, 0⟩).2.o_req_mem_strob = 0 ∧
     (comb ⟨0, 0, false⟩
        ⟨true, true, true, 4, 3, 0xDEADBEEF, false, 0⟩).2.o_req_mem_data = 0) :=
  ⟨by decide,
   C7_invalid_size_noop ⟨0, 0, false⟩
     ⟨true, true, true, 4, 3, 0xDEADBEEF, false, 0⟩ rfl (by decide)⟩

/-- C8: in every cycle `busReqValid` echoes `reqValid`, `busReqWrite` echoes
`reqWrite`, `respValid` echoes `busRespValid`, `respAddress` is the latched
request address, and a non-write cycle drives a zero strobe. -/
theorem C8_output_wiring (r : RegistersType) (i : CombInputs) :
    (comb r i).2.o_req_mem_valid = i.i_req_data_valid ∧
    (comb r i).2.o_req_mem_write = i.i_req_data_write ∧
    (comb r i).2.o_resp_data_valid = i.i_resp_mem_data_valid ∧
    (comb r i).2.o_resp_data_addr = r.req_addr ∧
    (i.i_req_data_write = false → (comb r i).2.o_req_mem_strob = 0) := by
  refine ⟨rfl, rfl, rfl, rfl, fun h => ?_⟩
  simp [comb, h]

/-- C8 witness: a read cycle drives a zero strobe. -/
theorem C8_output_wiring_witness :
    (comb ⟨9, 1, true⟩
        ⟨true, true, false, 2, 13, 5, true, 7⟩).2.o_req_mem_strob = 0 :=
  (C8_output_wiring ⟨9, 1, true⟩ ⟨true, true, false, 2, 13, 5, true, 7⟩).2.2.2.2 rfl

/-- C10: the latched `rena` flag is unobservable — two register states that
differ only in `rena` produce identical values on every output of the
combinational function, for all inputs. -/
theorem C10_rena_unobservable (a s : Nat) (b1 b2 : Bool) (i : CombInputs) :
    (comb ⟨a, s, b1⟩ i).2 = (comb ⟨a, s, b2⟩ i).2 :=
  rfl

end DCacheModel
